import Mathlib

/-!
Verification of the MenuWise menu-to-dish resolution pipeline.

Shallow embedding of the core pipeline:
* `src/services/openai.ts` — OCR extraction (`extractKoreanFoodNames`) and the
  menu analysis orchestrator (`analyzeKoreanMenu`);
* the storage layer (`findKoreanFood` / `createKoreanFood`) as an in-memory
  association list;
* the image layer — `KoreanImageService.searchKoreanFoodImage` (the waterfall),
  `searchNaver`, and `UnsplashService.searchKoreanFood` /
  `searchGenericKoreanFood` — with external HTTP responses supplied as oracle
  environments and provider queries recorded as an event trace.

External calls (OpenAI, the database driver, HTTP image providers) are
modelled as environment fields; fallible calls return `Except Unit`.
JavaScript numbers are modelled as `Nat`/`Int`/`Rat`; JavaScript string
operations (`includes`, `split`, `toLowerCase`, truthiness of strings and of
`undefined`) are embedded explicitly below.
-/

namespace MenuWise

/-! JavaScript string helpers -/

/-- Is `needle` an initial segment of the character list. -/
def charsPre : List Char → List Char → Bool
  | [], _ => true
  | _ :: _, [] => false
  | a :: as, b :: bs => a == b && charsPre as bs

/-- Does the character list contain `needle` as a contiguous run. -/
def charsSub (needle : List Char) : List Char → Bool
  | [] => charsPre needle []
  | c :: cs => charsPre needle (c :: cs) || charsSub needle cs

/-- JavaScript `hay.includes(needle)`. -/
def strIncludes (hay needle : String) : Bool := charsSub needle.data hay.data

/-- JavaScript `s.toLowerCase()`, as a character-wise lowering. -/
def strLower (s : String) : String := String.mk (s.data.map Char.toLower)

/-- Split a character list at every occurrence of `sep` (JavaScript
`split` semantics: the result is never empty, and separators at the ends
produce empty pieces). -/
def splitChars (sep : Char) : List Char → List (List Char)
  | [] => [[]]
  | c :: cs =>
    if c = sep then [] :: splitChars sep cs
    else
      match splitChars sep cs with
      | [] => [[c]]
      | p :: ps => (c :: p) :: ps

/-- JavaScript `s.split(sep)` for a one-character separator. -/
def jsSplit (s : String) (sep : Char) : List String :=
  (splitChars sep s.data).map (fun l => String.mk l)

/-- JavaScript `a || b` on two possibly-undefined strings: `b` when `a` is
`undefined` or the empty string (both falsy), else `a`. -/
def jsOrStr (a b : Option String) : Option String :=
  match a with
  | some s => if s = "" then b else some s
  | none => b

/-! Token usage and cost accounting (src/services/openai.ts, lines 78-95) -/

/-- The token usage object attached to every analysis response. -/
structure TokenUsage where
  prompt_tokens : Nat
  completion_tokens : Nat
  total_tokens : Nat
  cost_usd : Rat
  cost_aud : Rat
deriving DecidableEq

/-- Raw usage numbers reported by the model provider. -/
structure RawUsage where
  prompt_tokens : Nat
  completion_tokens : Nat
  total_tokens : Nat
deriving DecidableEq

/-- Fixed rate per prompt token (source line 80: 0.0025 per 1K prompt tokens). -/
def promptTokenCost : Rat := 0.0025 / 1000

/-- Fixed rate per completion token (source line 81: 0.01 per 1K completion tokens). -/
def completionTokenCost : Rat := 0.01 / 1000

/-- Cost computation of `extractKoreanFoodNames` (source lines 79-83):
linear USD model over the two token counts, AUD as USD times the fixed 1.5. -/
def computeTokenUsage (u : RawUsage) : TokenUsage :=
  let totalCostUSD : Rat :=
    u.prompt_tokens * promptTokenCost + u.completion_tokens * completionTokenCost
  { prompt_tokens := u.prompt_tokens
    completion_tokens := u.completion_tokens
    total_tokens := u.total_tokens
    cost_usd := totalCostUSD
    cost_aud := totalCostUSD * 1.5 }

/-! OCR extraction step (src/services/openai.ts, extractKoreanFoodNames) -/

/-- The parsed JSON body of the model response (result of `JSON.parse` at
source line 76): `extractedNames` and `totalDetected` may be absent. -/
structure ParsedOcr where
  isKoreanMenu : Bool
  extractedNames : Option (List String)
  totalDetected : Option Nat
deriving DecidableEq

/-- What `extractKoreanFoodNames` returns to the orchestrator. -/
structure OcrResult where
  isKoreanMenu : Bool
  extractedNames : List String
  totalDetected : Option Nat
  tokenUsage : TokenUsage
deriving DecidableEq

/-- Function `extractKoreanFoodNames` (source lines 85-96) applied to a parsed model
response: passes `isKoreanMenu` and `totalDetected` through, defaults
`extractedNames` to `[]` when absent (source line 87), and attaches the
computed token usage.  No truncation of the name list is performed. -/
def extractKoreanFoodNames (resp : ParsedOcr) (u : RawUsage) : OcrResult :=
  { isKoreanMenu := resp.isKoreanMenu
    extractedNames := resp.extractedNames.getD []
    totalDetected := resp.totalDetected
    tokenUsage := computeTokenUsage u }

/-! Data model (src/unnamed/part_004 schema, koreanFoods table and DetectedDish) -/

/-- A stored Korean food record (the koreanFoods row, dropping the
database-managed id and timestamps, as in InsertKoreanFood). -/
structure KoreanFood where
  nameKorean : String
  nameEnglish : String
  description : String
  ingredients : List String
  calories : Int
  category : String
  spiciness : Int
  allergens : List String
  isVegetarian : Bool
  isVegan : Bool
  servingSize : String
  cookingMethod : String
  region : String
  imageUrl : Option String
deriving DecidableEq

/-- The value built by `getFoodDetailsFromAI` (source lines 164-180): a food
record plus the `descriptionEnglish` field that is not a table column but is
carried on the returned object and read again at source line 295. -/
structure AiFood where
  food : KoreanFood
  descriptionEnglish : String
deriving DecidableEq

/-- One detected dish of the analysis response (DetectedDish in the schema). -/
structure DetectedDish where
  nameKorean : String
  nameEnglish : String
  description : String
  descriptionEnglish : String
  ingredients : List String
  calories : Int
  imageUrl : Option String
  imageAccuracy : String
  category : String
  spiciness : Int
  allergens : List String
  isVegetarian : Bool
  isVegan : Bool
  servingSize : String
  cookingMethod : String
  region : String
  confidence : Rat
  source : String
deriving DecidableEq

/-! Storage operations (src/unnamed/part_000, DatabaseStorage) -/

/-- The koreanFoods table, as the list of its rows in insertion order. -/
abbrev Store := List KoreanFood

/-- Operation `storage.findKoreanFood`: select the first row whose nameKorean equals the
query exactly. -/
def findKoreanFood (s : Store) (name : String) : Option KoreanFood :=
  s.find? (fun f => f.nameKorean == name)

/-- Operation `storage.createKoreanFood`: insert the record and return it. -/
def createKoreanFood (s : Store) (f : KoreanFood) : Store × KoreanFood :=
  (s ++ [f], f)

/-! Image result parsing inside the orchestrator
(src/services/openai.ts, lines 233-240 and 272-279) -/

/-- The orchestrator parsing of an image search result: `null` gives a null
URL with accuracy high; otherwise the string is split on the bar, the first
part is the URL, and the accuracy defaults to high when the part after the
bar is absent or empty (the JavaScript `accuracy or-else high` with an empty
string being falsy). -/
def parseImageResult : Option String → Option String × String
  | none => (none, "high")
  | some s =>
    let parts := jsSplit s '|'
    let url := parts.headD ""
    let acc := (parts.drop 1).headD ""
    (some url, if acc = "" then "high" else acc)

/-! Menu analysis orchestrator (src/services/openai.ts, analyzeKoreanMenu) -/

/-- Store and provider interactions performed by the orchestrator loop,
recorded in call order. -/
inductive StoreEvent where
  | findFood (name : String)
  | aiDetails (name : String)
  | imageSearchCall (korean english : String)
  | createFood (name : String)
deriving DecidableEq

/-- The orchestrator external collaborators: whether the store lookup
throws, the `getFoodDetailsFromAI` call, the `unsplashService.searchKoreanFood`
call, and whether the store insert throws. -/
structure OrcEnv where
  findFails : String → Bool
  ai : String → Except Unit AiFood
  imageSearch : String → String → Except Unit (Option String)
  createFails : Bool

/-- Per-name usage increment on the generative path (source lines 312-317). -/
def addAiUsage (u : TokenUsage) : TokenUsage :=
  { prompt_tokens := u.prompt_tokens + 200
    completion_tokens := u.completion_tokens + 400
    total_tokens := u.total_tokens + 600
    cost_usd := u.cost_usd + 0.004
    cost_aud := u.cost_aud + 0.006 }

/-- The dish pushed on the database-hit path (source lines 243-262). -/
def dishFromStore (f : KoreanFood) (url : Option String) (acc : String) : DetectedDish :=
  { nameKorean := f.nameKorean
    nameEnglish := f.nameEnglish
    description := f.description
    descriptionEnglish := "Traditional Korean " ++ f.nameEnglish
    ingredients := f.ingredients
    calories := f.calories
    imageUrl := url
    imageAccuracy := acc
    category := f.category
    spiciness := f.spiciness
    allergens := f.allergens
    isVegetarian := f.isVegetarian
    isVegan := f.isVegan
    servingSize := f.servingSize
    cookingMethod := f.cookingMethod
    region := f.region
    confidence := 1.0
    source := "database" }

/-- The dish pushed on the generative path (source lines 291-310): fields come
from the saved record, `descriptionEnglish` from the AI object with the same
falsy-default as source line 295. -/
def dishFromAi (saved : KoreanFood) (aiDescEnglish : String)
    (url : Option String) (acc : String) : DetectedDish :=
  { nameKorean := saved.nameKorean
    nameEnglish := saved.nameEnglish
    description := saved.description
    descriptionEnglish :=
      if aiDescEnglish = "" then "Traditional Korean " ++ saved.nameEnglish
      else aiDescEnglish
    ingredients := saved.ingredients
    calories := saved.calories
    imageUrl := url
    imageAccuracy := acc
    category := saved.category
    spiciness := saved.spiciness
    allergens := saved.allergens
    isVegetarian := saved.isVegetarian
    isVegan := saved.isVegan
    servingSize := saved.servingSize
    cookingMethod := saved.cookingMethod
    region := saved.region
    confidence := 0.8
    source := "ai" }

/-- Result of processing one extracted name: the dish pushed (none when the
per-name try-catch swallowed an error), the store and accumulated usage
afterwards, and the external calls made. -/
structure StepResult where
  dish : Option DetectedDish
  store : Store
  usage : TokenUsage
  events : List StoreEvent
deriving DecidableEq

/-- Body of the orchestrator per-name loop (source lines 222-323): store
lookup first; on a hit, image search and a database-sourced dish; on a miss,
generative details, image search with the generated English name, insertion of
the record (with the found image URL) into the store, then an ai-sourced dish.
Any error is caught and the name is skipped, leaving the store as it was. -/
def processOne (env : OrcEnv) (store : Store) (usage : TokenUsage)
    (name : String) : StepResult :=
  if env.findFails name then ⟨none, store, usage, [.findFood name]⟩
  else
    match findKoreanFood store name with
    | some foodData =>
      match env.imageSearch name foodData.nameEnglish with
      | .error _ =>
        ⟨none, store, usage,
          [.findFood name, .imageSearchCall name foodData.nameEnglish]⟩
      | .ok imageResult =>
        let p := parseImageResult imageResult
        ⟨some (dishFromStore foodData p.1 p.2), store, usage,
          [.findFood name, .imageSearchCall name foodData.nameEnglish]⟩
    | none =>
      match env.ai name with
      | .error _ => ⟨none, store, usage, [.findFood name, .aiDetails name]⟩
      | .ok aiData =>
        match env.imageSearch name aiData.food.nameEnglish with
        | .error _ =>
          ⟨none, store, usage,
            [.findFood name, .aiDetails name,
             .imageSearchCall name aiData.food.nameEnglish]⟩
        | .ok imageResult =>
          let p := parseImageResult imageResult
          let newFood : KoreanFood := { aiData.food with imageUrl := p.1 }
          if env.createFails then
            ⟨none, store, usage,
              [.findFood name, .aiDetails name,
               .imageSearchCall name aiData.food.nameEnglish,
               .createFood newFood.nameKorean]⟩
          else
            let created := createKoreanFood store newFood
            ⟨some (dishFromAi created.2 aiData.descriptionEnglish p.1 p.2),
              created.1, addAiUsage usage,
              [.findFood name, .aiDetails name,
               .imageSearchCall name aiData.food.nameEnglish,
               .createFood newFood.nameKorean]⟩

/-- The orchestrator loop over all extracted names, threading the store and
the accumulated usage. -/
def processAll (env : OrcEnv) (store : Store) (usage : TokenUsage) :
    List String → List DetectedDish × Store × TokenUsage × List StoreEvent
  | [] => ([], store, usage, [])
  | name :: rest =>
    let r := processOne env store usage name
    let t := processAll env r.store r.usage rest
    (r.dish.toList ++ t.1, t.2.1, t.2.2.1, r.events ++ t.2.2.2)

/-- Per-name success flags of the same loop: `true` exactly when the name
resolved without a caught error, under the store threaded by the run itself. -/
def resolveOutcomes (env : OrcEnv) (store : Store) (usage : TokenUsage) :
    List String → List Bool
  | [] => []
  | name :: rest =>
    let r := processOne env store usage name
    r.dish.isSome :: resolveOutcomes env r.store r.usage rest

/-- The guard at source lines 205-208: `totalDetected` truthy and above 3. -/
def foodLimitExceeded : Option Nat → Bool
  | none => false
  | some n => n != 0 && decide (3 < n)

/-- Errors surfaced by `analyzeKoreanMenu`: the distinguished FOOD_LIMIT_ERROR
carrying the detected count (re-thrown verbatim by the outer catch at source
lines 334-336), and the generic analysis failure (source line 338). -/
inductive MenuError where
  | foodLimit (count : Nat)
  | analysisFailed
deriving DecidableEq

/-- The value returned by `analyzeKoreanMenu` on success. -/
structure AnalyzeResult where
  isKoreanMenu : Bool
  dishes : List DetectedDish
  tokenUsage : TokenUsage
deriving DecidableEq

/-- Function `analyzeKoreanMenu` (source lines 188-340) over an already-run extraction
step (whose own failure the outer catch converts to the generic error), the
initial store, and the collaborator environment.  Returns the outcome, the
final store, and the store and provider calls made by the resolution loop. -/
def analyzeKoreanMenu (env : OrcEnv) (store : Store)
    (ocr : Except Unit OcrResult) :
    Except MenuError AnalyzeResult × Store × List StoreEvent :=
  match ocr with
  | .error _ => (.error .analysisFailed, store, [])
  | .ok ocrResult =>
    if foodLimitExceeded ocrResult.totalDetected then
      (.error (.foodLimit (ocrResult.totalDetected.getD 0)), store, [])
    else if !ocrResult.isKoreanMenu then
      (.ok ⟨false, [], ocrResult.tokenUsage⟩, store, [])
    else
      let t := processAll env store ocrResult.tokenUsage ocrResult.extractedNames
      (.ok ⟨true, t.1, t.2.2.1⟩, t.2.1, t.2.2.2)

/-! Korean image service: Naver adapter (src/unnamed/part_003, searchNaver) -/

/-- Image accuracy tier of an ImageResult. -/
inductive ImgAccuracy where
  | high
  | medium
  | low
deriving DecidableEq

/-- Accuracy tier as the string appended after the bar. -/
def ImgAccuracy.toLabel : ImgAccuracy → String
  | .high => "high"
  | .medium => "medium"
  | .low => "low"

/-- A candidate item of the Naver image search response. -/
structure NaverItem where
  title : String
  source : String
  originalUrl : Option String
  thumb : Option String
deriving DecidableEq

/-- The candidate returned by a provider adapter (the fields the waterfall
reads). -/
structure ImageResult where
  url : String
  accuracy : ImgAccuracy
deriving DecidableEq

/-- The URL of a Naver item: `originalUrl or-else thumb or-else empty`
(source part_003 line 170). -/
def itemUrl (it : NaverItem) : String :=
  (jsOrStr it.originalUrl it.thumb).getD ""

/-- URL filter of part_003 lines 173-175 and 211-213: the authentic Korean
blog domains. -/
def koreanBlogUrl (u : String) : Bool :=
  strIncludes u "blogfiles.naver.net" || strIncludes u "postfiles.naver.net" ||
    strIncludes u "blog.naver.com"

/-- URL filter of part_003 lines 204-207: commerce and shopping domains that
often refuse external fetches. -/
def blockedDomain (u : String) : Bool :=
  strIncludes u "shopping.phinf.naver.net" || strIncludes u "shop1.phinf.naver.net" ||
    strIncludes u "commerce." || strIncludes u "shopping."

/-- Relevance score of one Naver item (part_003 lines 166-190). -/
def naverScore (it : NaverItem) : Int :=
  let title := strLower it.title
  let source := strLower it.source
  let u := itemUrl it
  (if koreanBlogUrl u then (10 : Int) else 0) +
    (if strIncludes title "음식" || strIncludes title "요리" ||
        strIncludes title "맛집" then (3 : Int) else 0) +
    (if strIncludes title "한국" || strIncludes title "전통" then (2 : Int) else 0) +
    (if strIncludes source "blog" || strIncludes source "recipe" ||
        strIncludes source "restaurant" then (2 : Int) else 0) +
    (if strIncludes u "pinimg.com" then (1 : Int) else 0) -
    (if strIncludes title "사람" || strIncludes title "건물" ||
        strIncludes title "풍경" then (2 : Int) else 0)

/-- First element of the stable descending sort by score: the earliest element
attaining the maximal score. -/
def pickFirstMax {α : Type} : List (α × Int) → Option (α × Int)
  | [] => none
  | x :: xs => some (xs.foldl (fun acc y => if y.2 > acc.2 then y else acc) x)

/-- One query iteration of `searchNaver` (part_003 lines 142-229) applied to
the items of that response of that query: score all items, take the top of the
stable descending sort, and if its score is non-negative inspect its URL — a
blocked commerce or shopping domain abandons the whole response (the continue
at line 208 targets the query loop), a Korean blog domain forces accuracy
high, and otherwise the accuracy tiers come from the score thresholds. -/
def searchNaverStep (items : List NaverItem) : Option ImageResult :=
  match pickFirstMax (items.map fun it => (it, naverScore it)) with
  | none => none
  | some best =>
    if 0 ≤ best.2 then
      let u := itemUrl best.1
      if blockedDomain u then none
      else
        some { url := u
               accuracy :=
                 if koreanBlogUrl u then .high
                 else if best.2 < 2 then .low
                 else if best.2 < 4 then .medium
                 else .high }
    else none

/-- Function `searchNaver` over the responses of its successive queries: the first
query whose response yields a candidate wins. -/
def searchNaver : List (List NaverItem) → Option ImageResult
  | [] => none
  | r :: rs =>
    match searchNaverStep r with
    | some x => some x
    | none => searchNaver rs

/-! Image resolution waterfall (src/unnamed/part_003, searchKoreanFoodImage) -/

/-- Provider queries and URL validation probes, recorded in call order across
the waterfall and the stock-photo fallback. -/
inductive ImgEvent where
  | naverQuery
  | pexelsQuery
  | pixabayQuery
  | naverAltQuery
  | validateUrl (url : String)
  | unsplashQuery (q : String)
  | genericUnsplashQuery
deriving DecidableEq

/-- Environment of one waterfall run: the Naver responses for the default
query list, the responses for the (up to two) alternative queries, the
candidates the Pexels and Pixabay adapters would return, and the URL
validation probe. -/
structure WaterEnv where
  naverResponses : List (List NaverItem)
  altResponses : List (List NaverItem)
  pexels : Option ImageResult
  pixabay : Option ImageResult
  valid : String → Bool

/-- Function `getAlternativeNaverUrls` (part_003 lines 104-126): at most two alternative
queries, each a single-query Naver search, collecting the candidates. -/
def getAlternativeNaverUrls (e : WaterEnv) : List ImageResult :=
  (e.altResponses.take 2).filterMap searchNaverStep

/-- The loop over alternative Naver candidates (part_003 lines 57-68):
validate each in turn, returning the first that passes. -/
def tryAltUrls (valid : String → Bool) : List ImageResult → Option String × List ImgEvent
  | [] => (none, [])
  | r :: rest =>
    if valid r.url then
      (some (r.url ++ "|" ++ r.accuracy.toLabel), [.validateUrl r.url])
    else
      let t := tryAltUrls valid rest
      (t.1, .validateUrl r.url :: t.2)

/-- One provider stage of the waterfall: query event, then on a candidate a
validation probe returning `url|accuracy` on success, otherwise fall through
to the next stage. -/
def validateStage (valid : String → Bool) (r : Option ImageResult)
    (queryEv : ImgEvent) (next : Option String × List ImgEvent) :
    Option String × List ImgEvent :=
  match r with
  | some ir =>
    if valid ir.url then
      (some (ir.url ++ "|" ++ ir.accuracy.toLabel), [queryEv, .validateUrl ir.url])
    else (next.1, [queryEv, .validateUrl ir.url] ++ next.2)
  | none => (next.1, queryEv :: next.2)

/-- Method `KoreanImageService.searchKoreanFoodImage` (part_003 lines 19-78): Naver
first, then Pexels, then Pixabay, each validated; then — only when Naver had
produced a candidate — the alternative Naver URLs; otherwise none, leaving
the caller to its own stock-photo fallback. -/
def searchKoreanFoodImage (e : WaterEnv) : Option String × List ImgEvent :=
  let naverResult := searchNaver e.naverResponses
  let altStage :=
    if naverResult.isSome then
      let t := tryAltUrls e.valid (getAlternativeNaverUrls e)
      (t.1, ImgEvent.naverAltQuery :: t.2)
    else (none, [])
  let pixStage := validateStage e.valid e.pixabay .pixabayQuery altStage
  let pexStage := validateStage e.valid e.pexels .pexelsQuery pixStage
  validateStage e.valid naverResult .naverQuery pexStage

/-! Unsplash service (src/unnamed/part_002) -/

/-- One Unsplash photo of a search response. -/
structure UnsplashImage where
  regular : String
  altDescr : Option String
  descr : Option String
deriving DecidableEq

/-- Relevance score of one Unsplash image for a query (part_002 lines 112-137). -/
def unsplashScore (searchQuery : String) (img : UnsplashImage) : Int :=
  let alt := (img.altDescr.map strLower).getD ""
  let desc := (img.descr.map strLower).getD ""
  let searchLower := strLower searchQuery
  (if strIncludes alt "food" || strIncludes desc "food" then (3 : Int) else 0) +
    (if strIncludes alt "korean" || strIncludes desc "korean" then (3 : Int) else 0) +
    (if strIncludes alt "dish" || strIncludes alt "meal" ||
        strIncludes alt "cuisine" then (2 : Int) else 0) +
    (if strIncludes alt "restaurant" || strIncludes alt "cooking" then (2 : Int) else 0) +
    (if strIncludes searchLower "shrimp" &&
        (strIncludes alt "shrimp" || strIncludes alt "prawn") then (4 : Int) else 0) +
    (if strIncludes searchLower "crab" && strIncludes alt "crab" then (4 : Int) else 0) +
    (if strIncludes searchLower "squid" &&
        (strIncludes alt "squid" || strIncludes alt "octopus") then (4 : Int) else 0) +
    (if strIncludes searchLower "chicken" && strIncludes alt "chicken" then (4 : Int) else 0) +
    (if strIncludes searchLower "beef" && strIncludes alt "beef" then (4 : Int) else 0) -
    (if strIncludes alt "person" || strIncludes alt "people" ||
        strIncludes alt "man" || strIncludes alt "woman" then (2 : Int) else 0) -
    (if strIncludes alt "building" || strIncludes alt "street" ||
        strIncludes alt "city" then (2 : Int) else 0) -
    (if strIncludes alt "nature" || strIncludes alt "landscape" ||
        strIncludes alt "sky" then (2 : Int) else 0)

/-- Function `getSearchTerms` (part_002 lines 55-77): ingredient and dish-type keyword
extraction from the lowercased English dish name. -/
def getSearchTerms (dishName : String) : List String :=
  let name := strLower dishName
  if strIncludes name "squid" || strIncludes name "octopus" then
    ["korean squid", "korean seafood"]
  else if strIncludes name "shrimp" then ["korean shrimp", "korean prawns"]
  else if strIncludes name "crab" then ["korean crab", "soy marinated crab"]
  else if strIncludes name "chicken" then ["korean chicken", "chicken stew"]
  else if strIncludes name "beef" then ["korean beef", "bulgogi"]
  else if strIncludes name "pork" then ["korean pork"]
  else if strIncludes name "fish" then ["korean fish"]
  else if strIncludes name "tofu" then ["korean tofu"]
  else if strIncludes name "stew" || strIncludes name "soup" then
    ["korean stew", "korean soup"]
  else if strIncludes name "rice" || strIncludes name "bibimbap" then
    ["korean rice", "bibimbap"]
  else if strIncludes name "noodle" then ["korean noodles"]
  else if strIncludes name "set" || strIncludes name "meal" then
    ["korean set meal", "korean banchan"]
  else if strIncludes name "bbq" || strIncludes name "grilled" then
    ["korean bbq", "korean grill"]
  else ["korean food", "korean cuisine"]

/-- The three query phrasings per search term (part_002 lines 83-87). -/
def searchQueriesOf (terms : List String) : List String :=
  terms.flatMap fun term =>
    [term ++ " dish", term ++ " restaurant", "traditional " ++ term]

/-- Environment of the Unsplash service: the access key, the search response
per query, the response to the fixed generic query, and the random draw. -/
structure UnsplashEnv where
  accessKey : String
  query : String → List UnsplashImage
  genericImages : List UnsplashImage
  rand : Nat

/-- The query loop of part_002 lines 89-156: first query with a non-empty
response wins; its images are scored, the top of the stable descending sort
is taken, and accuracy derives from the score thresholds. -/
def unsplashLoop (query : String → List UnsplashImage) :
    List String → Option String × List ImgEvent
  | [] => (none, [])
  | q :: rest =>
    let images := query q
    match pickFirstMax (images.map fun img => (img, unsplashScore q img)) with
    | none =>
      let t := unsplashLoop query rest
      (t.1, .unsplashQuery q :: t.2)
    | some best =>
      let acc := if best.2 < 2 then "low" else if best.2 < 4 then "medium" else "high"
      (some (best.1.regular ++ "|" ++ acc), [.unsplashQuery q])

/-- Method `UnsplashService.searchKoreanFood` (part_002 lines 33-164): the Korean
waterfall first; on none, stop without result when the access key is empty or
no English name was given, else run the derived query list against Unsplash. -/
def searchKoreanFood (we : WaterEnv) (ue : UnsplashEnv)
    (koreanFoodName : String) (englishFoodName : Option String) :
    Option String × List ImgEvent :=
  let k := searchKoreanFoodImage we
  match k.1 with
  | some s => (some s, k.2)
  | none =>
    if ue.accessKey = "" then (none, k.2)
    else
      match englishFoodName with
      | none => (none, k.2)
      | some en =>
        let t := unsplashLoop ue.query (searchQueriesOf (getSearchTerms en))
        (t.1, k.2 ++ t.2)

/-- Method `UnsplashService.searchGenericKoreanFood` (part_002 lines 166-201): the
fixed generic query, then a random pick among the first `min 5 n` results.
The random draw `rand` selects index `rand mod min n 5`. -/
def searchGenericKoreanFood (ue : UnsplashEnv) : Option String × List ImgEvent :=
  if ue.accessKey = "" then (none, [])
  else
    let images := ue.genericImages
    if images.isEmpty then (none, [.genericUnsplashQuery])
    else
      let idx := ue.rand % min images.length 5
      ((images[idx]?).map (fun img => img.regular), [.genericUnsplashQuery])

/-! Concrete fixtures used by witnesses and counterexamples -/

/-- Whether an image search result string carries a non-empty accuracy part
after the bar. -/
def hasAccuracySuffix : Option String → Bool
  | none => false
  | some s => ((jsSplit s '|').drop 1).headD "" != ""

/-- Zero token usage. -/
def usage0 : TokenUsage := ⟨0, 0, 0, 0, 0⟩

/-- A stored bibimbap record. -/
def bibimbapFood : KoreanFood :=
  { nameKorean := "비빔밥"
    nameEnglish := "Bibimbap"
    description := "Rice bowl with vegetables"
    ingredients := ["rice", "vegetables"]
    calories := 420
    category := "Main Dish"
    spiciness := 2
    allergens := ["soy"]
    isVegetarian := false
    isVegan := false
    servingSize := "1 bowl"
    cookingMethod := "mixed"
    region := "Jeonju"
    imageUrl := none }

/-- A generative response whose Korean name differs from the queried name. -/
def c1xAi : AiFood :=
  ⟨{ nameKorean := "호떡구이"
     nameEnglish := "Hotteok"
     description := "Sweet filled pancake"
     ingredients := ["flour", "sugar"]
     calories := 230
     category := "Dessert"
     spiciness := 0
     allergens := ["gluten"]
     isVegetarian := true
     isVegan := false
     servingSize := "1 piece"
     cookingMethod := "pan-fried"
     region := "Nationwide"
     imageUrl := none }, "Korean sweet pancake"⟩

/-- Environment for the C1 counterexample: every call succeeds, the AI
response names the dish differently from the query. -/
def c1xEnv : OrcEnv :=
  { findFails := fun _ => false
    ai := fun _ => .ok c1xAi
    imageSearch := fun _ _ => .ok none
    createFails := false }

/-- Environment whose only behavior matters for store-hit paths; image search
yields a low-accuracy candidate. -/
def c9Env1 : OrcEnv :=
  { findFails := fun _ => false
    ai := fun _ => .error ()
    imageSearch := fun _ _ => .ok (some "https://a.jpg|low")
    createFails := false }

/-- As `c9Env1`, but the image search yields a high-accuracy candidate. -/
def c9Env2 : OrcEnv :=
  { findFails := fun _ => false
    ai := fun _ => .error ()
    imageSearch := fun _ _ => .ok (some "https://b.jpg|high")
    createFails := false }

/-- The dish the store-hit path builds under `c9Env1`. -/
def c9d1 : DetectedDish := dishFromStore bibimbapFood (some "https://a.jpg") "low"

/-- The dish the store-hit path builds under `c9Env2`. -/
def c9d2 : DetectedDish := dishFromStore bibimbapFood (some "https://b.jpg") "high"

/-- Environment for orchestrator witnesses: lookups succeed, the generative
call fails, image search finds nothing. -/
def cwEnv : OrcEnv :=
  { findFails := fun _ => false
    ai := fun _ => .error ()
    imageSearch := fun _ _ => .ok none
    createFails := false }

/-- OCR result with five detected items, triggering the food limit. -/
def c2Ocr : OcrResult :=
  { isKoreanMenu := true
    extractedNames := ["비빔밥", "김치찌개", "불고기"]
    totalDetected := some 5
    tokenUsage := usage0 }

/-- OCR result with two names, one of which will fail to resolve. -/
def c3Ocr : OcrResult :=
  { isKoreanMenu := true
    extractedNames := ["비빔밥", "김치찌개"]
    totalDetected := some 2
    tokenUsage := usage0 }

/-- A model response carrying four extracted names. -/
def c5Resp : ParsedOcr := ⟨true, some ["김밥", "라면", "떡볶이", "만두"], some 3⟩

/-- A model response carrying one extracted name. -/
def c5RespOk : ParsedOcr := ⟨true, some ["비빔밥"], some 1⟩

/-- The dish built by `processOne` in the C1 amended witness run. -/
def c1wDish : DetectedDish :=
  dishFromAi { c1xAi.food with imageUrl := none } c1xAi.descriptionEnglish none "high"

/-- A Naver item from an authentic Korean blog domain. -/
def naverBlogItem : NaverItem :=
  { title := "맛있는 음식"
    source := "blog"
    originalUrl := some "https://blogfiles.naver.net/b.jpg"
    thumb := none }

/-- The candidate `searchNaverStep` selects from `naverBlogItem`. -/
def naverBlogResult : ImageResult :=
  { url := "https://blogfiles.naver.net/b.jpg", accuracy := .high }

/-- Waterfall environment whose Naver search returns a validating candidate. -/
def c4We : WaterEnv :=
  { naverResponses := [[naverBlogItem]]
    altResponses := []
    pexels := none
    pixabay := none
    valid := fun _ => true }

/-- Unsplash environment that never finds anything. -/
def c4Ue : UnsplashEnv :=
  { accessKey := "key"
    query := fun _ => []
    genericImages := []
    rand := 0 }

/-- A Naver candidate from a blocked shopping domain with a high score. -/
def c6BlockedItem : NaverItem :=
  { title := "한국 음식"
    source := "restaurant"
    originalUrl := some "https://shopping.phinf.naver.net/a.jpg"
    thumb := none }

/-- A Naver candidate from a plain domain with score zero. -/
def c6CleanItem : NaverItem :=
  { title := "korean dish photo"
    source := ""
    originalUrl := some "https://cdn.example.com/x.jpg"
    thumb := none }

/-- Waterfall environment in which every provider fails. -/
def c7We : WaterEnv :=
  { naverResponses := []
    altResponses := []
    pexels := none
    pixabay := none
    valid := fun _ => false }

/-- Unsplash environment with a key, empty per-dish results, and one generic
result. -/
def c7Ue : UnsplashEnv :=
  { accessKey := "key"
    query := fun _ => []
    genericImages := [⟨"https://generic.jpg", none, none⟩]
    rand := 0 }

/-! Helper lemmas -/

/-- A name that fails to resolve leaves the store and the accumulated usage
untouched. -/
lemma processOne_none_preserves (env : OrcEnv) (store : Store)
    (usage : TokenUsage) (name : String)
    (h : (processOne env store usage name).dish = none) :
    (processOne env store usage name).store = store ∧
      (processOne env store usage name).usage = usage := by
  unfold processOne at h ⊢
  split at h
  · simp_all
  · split at h
    · split at h <;> simp_all
    · split at h
      · simp_all
      · split at h
        · simp_all
        · split at h <;> simp_all

/-- The dish list produced by the loop has one entry per successfully
resolved name. -/
lemma processAll_length (env : OrcEnv) :
    ∀ (names : List String) (store : Store) (usage : TokenUsage),
      (processAll env store usage names).1.length =
        (resolveOutcomes env store usage names).count true := by
  intro names
  induction names with
  | nil => intro store usage; rfl
  | cons name rest ih =>
    intro store usage
    show (((processOne env store usage name).dish.toList) ++ _).length = _
    rw [List.length_append, ih]
    rcases h : (processOne env store usage name).dish with _ | d <;>
      simp [resolveOutcomes, h, List.count_cons] <;> omega

/-- When every query returns no images, the Unsplash loop returns nothing and
records one query event per query. -/
lemma unsplashLoop_empty (query : String → List UnsplashImage)
    (hq : ∀ q, query q = []) :
    ∀ qs, unsplashLoop query qs = (none, qs.map ImgEvent.unsplashQuery) := by
  intro qs
  induction qs with
  | nil => rfl
  | cons q rest ih => simp [unsplashLoop, hq q, pickFirstMax, ih]

/-- Inversion of the store-hit path: a dish was pushed for a name found in
the store exactly when the image search succeeded, and the dish is the
database-sourced one while the store is untouched. -/
lemma processOne_hit_inv (env : OrcEnv) (store : Store) (usage : TokenUsage)
    (name : String) (f : KoreanFood) (d : DetectedDish)
    (hff : env.findFails name = false)
    (hfind : findKoreanFood store name = some f)
    (hd : (processOne env store usage name).dish = some d) :
    ∃ ir, env.imageSearch name f.nameEnglish = Except.ok ir ∧
      d = dishFromStore f (parseImageResult ir).1 (parseImageResult ir).2 ∧
      (processOne env store usage name).store = store := by
  rcases himg : env.imageSearch name f.nameEnglish with e | ir
  · simp [processOne, hff, hfind, himg] at hd
  · refine ⟨ir, rfl, ?_, ?_⟩ <;>
      simp [processOne, hff, hfind, himg] at hd ⊢ <;> simp [hd.symm]

/-- Inversion of the store-miss path: a dish was pushed for a name absent
from the store exactly when the generative call, the image search, and the
insert all succeeded; the dish is the ai-sourced one and the store gained the
record built from the generative response. -/
lemma processOne_miss_inv (env : OrcEnv) (store : Store) (usage : TokenUsage)
    (name : String) (d : DetectedDish)
    (hff : env.findFails name = false)
    (hfind : findKoreanFood store name = none)
    (hd : (processOne env store usage name).dish = some d) :
    ∃ a ir, env.ai name = Except.ok a ∧
      env.imageSearch name a.food.nameEnglish = Except.ok ir ∧
      env.createFails = false ∧
      d = dishFromAi { a.food with imageUrl := (parseImageResult ir).1 }
            a.descriptionEnglish (parseImageResult ir).1 (parseImageResult ir).2 ∧
      (processOne env store usage name).store =
        store ++ [{ a.food with imageUrl := (parseImageResult ir).1 }] := by
  rcases hai : env.ai name with e | a
  · simp [processOne, hff, hfind, hai] at hd
  · rcases himg : env.imageSearch name a.food.nameEnglish with e | ir
    · simp [processOne, hff, hfind, hai, himg] at hd
    · rcases hc : env.createFails with _ | _
      · refine ⟨a, ir, rfl, himg, rfl, ?_, ?_⟩ <;>
          simp [processOne, hff, hfind, hai, himg, hc, createKoreanFood] at hd ⊢ <;>
          simp [hd.symm]
      · simp [processOne, hff, hfind, hai, himg, hc] at hd

/-! C2 -/

/-- C2: whenever the OCR step reports a present `totalDetected` greater
than 3, `analyzeKoreanMenu` fails with the distinguished food-limit error
carrying that count (the outer catch re-throws it verbatim instead of
converting it into the generic analysis failure), the store is untouched, and
no dish resolution or store access happens (the event trace is empty). -/
theorem c2_food_limit_rejected (env : OrcEnv) (store : Store) (ocr : OcrResult)
    (n : Nat) (hn : ocr.totalDetected = some n) (h3 : 3 < n) :
    analyzeKoreanMenu env store (Except.ok ocr) =
      (Except.error (MenuError.foodLimit n), store, []) := by
  have hex : foodLimitExceeded (some n) = true := by
    simp only [foodLimitExceeded, Bool.and_eq_true, bne_iff_ne, ne_eq,
      decide_eq_true_eq]
    omega
  simp [analyzeKoreanMenu, hn, hex]

/-- C2 witness: a concrete run with five detected items is rejected with the
count five and an empty trace. -/
theorem c2_food_limit_rejected_witness :
    analyzeKoreanMenu cwEnv [] (Except.ok c2Ocr) =
      (Except.error (MenuError.foodLimit 5), [], []) :=
  c2_food_limit_rejected cwEnv [] c2Ocr 5 rfl (by decide)

/-! C5 -/

/-- C5 counterexample: a model response carrying four names is passed through
unchanged, so the list handed to the orchestrator has four entries — the
extraction step does not enforce the three-name bound. -/
theorem c5_extraction_exceeds_three :
    ¬ (extractKoreanFoodNames c5Resp ⟨10, 10, 20⟩).extractedNames.length ≤ 3 ∧
      (extractKoreanFoodNames c5Resp ⟨10, 10, 20⟩).extractedNames.length = 4 := by
  constructor
  · decide
  · rfl

/-- C5 amended: the extraction step passes the name list of the model response
through without truncation (defaulting to empty when absent), so the list
handed to the orchestrator has at most 3 entries exactly when the model
response itself contains at most 3 names. -/
theorem c5_names_passthrough (resp : ParsedOcr) (u : RawUsage)
    (h : (resp.extractedNames.getD []).length ≤ 3) :
    (extractKoreanFoodNames resp u).extractedNames.length ≤ 3 ∧
      (extractKoreanFoodNames resp u).extractedNames =
        resp.extractedNames.getD [] :=
  ⟨h, rfl⟩

/-- C5 amended witness: a one-name response stays within the bound. -/
theorem c5_names_passthrough_witness :
    (extractKoreanFoodNames c5RespOk ⟨10, 10, 20⟩).extractedNames.length ≤ 3 ∧
      (extractKoreanFoodNames c5RespOk ⟨10, 10, 20⟩).extractedNames =
        c5RespOk.extractedNames.getD [] :=
  c5_names_passthrough c5RespOk ⟨10, 10, 20⟩ (by decide)

/-! C1 -/

/-- C1 counterexample: the generative response may report a Korean name
differing from the queried one; the persisted record is keyed by the response
name, so after a successful miss-path resolution of the queried name the
store still has no record for that name — the claim that a record for the
extracted name is persisted fails at this input. -/
theorem c1_record_not_for_query_name :
    (processOne c1xEnv [] usage0 "호떡").dish.isSome = true ∧
      (processOne c1xEnv [] usage0 "호떡").store ≠ [] ∧
      findKoreanFood (processOne c1xEnv [] usage0 "호떡").store "호떡" = none := by
  refine ⟨rfl, ?_, rfl⟩
  decide

/-- C1 amended: on a store hit the dish has confidence exactly 1 and source
database with no store write; on a store miss the dish has confidence exactly
0.8 and source ai, and a record built from the generative response — keyed by
the Korean name that response reports, which need not equal the queried
name — is appended to the store before the dish is returned. -/
theorem c1_confidence_source (env : OrcEnv) (store : Store)
    (usage : TokenUsage) (name : String) (d : DetectedDish)
    (hff : env.findFails name = false)
    (hd : (processOne env store usage name).dish = some d) :
    (∀ f, findKoreanFood store name = some f →
      d.confidence = 1 ∧ d.source = "database" ∧
        (processOne env store usage name).store = store) ∧
    (findKoreanFood store name = none →
      d.confidence = 0.8 ∧ d.source = "ai" ∧
        ∃ rec, (processOne env store usage name).store = store ++ [rec] ∧
          rec.nameKorean = d.nameKorean) := by
  constructor
  · intro f hfind
    obtain ⟨ir, _, hdd, hst⟩ :=
      processOne_hit_inv env store usage name f d hff hfind hd
    refine ⟨?_, ?_, hst⟩ <;> rw [hdd]
    · norm_num [dishFromStore]
    · rfl
  · intro hfind
    obtain ⟨a, ir, _, _, _, hdd, hst⟩ :=
      processOne_miss_inv env store usage name d hff hfind hd
    refine ⟨?_, ?_, ⟨_, hst, ?_⟩⟩ <;> rw [hdd] <;> rfl

/-- C1 amended witness: resolving an absent name against a concrete
environment yields the 0.8-confidence ai-sourced dish and appends the
generated record. -/
theorem c1_confidence_source_witness :
    (∀ f, findKoreanFood ([] : Store) "호떡" = some f →
      c1wDish.confidence = 1 ∧ c1wDish.source = "database" ∧
        (processOne c1xEnv [] usage0 "호떡").store = []) ∧
    (findKoreanFood ([] : Store) "호떡" = none →
      c1wDish.confidence = 0.8 ∧ c1wDish.source = "ai" ∧
        ∃ rec, (processOne c1xEnv [] usage0 "호떡").store = [] ++ [rec] ∧
          rec.nameKorean = c1wDish.nameKorean) :=
  c1_confidence_source c1xEnv [] usage0 "호떡" c1wDish rfl rfl

/-! C3 -/

/-- C3: when extraction succeeds with at most three detected items on a
Korean menu, the orchestrator returns successfully and the dish list length
equals the number of extracted names that resolved without error; moreover a
name that fails to resolve is skipped and the loop continues with the
remaining names unchanged. -/
theorem c3_failure_tolerance (env : OrcEnv) (store : Store)
    (ocr : OcrResult) (hk : ocr.isKoreanMenu = true)
    (hlim : ∀ n, ocr.totalDetected = some n → n ≤ 3) :
    ∃ r, (analyzeKoreanMenu env store (Except.ok ocr)).1 = Except.ok r ∧
      r.isKoreanMenu = true ∧
      r.dishes.length =
        (resolveOutcomes env store ocr.tokenUsage ocr.extractedNames).count true ∧
      (∀ (store2 : Store) (usage2 : TokenUsage) (nm : String) (rest : List String),
        (processOne env store2 usage2 nm).dish = none →
        (processAll env store2 usage2 (nm :: rest)).1 =
          (processAll env store2 usage2 rest).1) := by
  have hex : foodLimitExceeded ocr.totalDetected = false := by
    rcases ho : ocr.totalDetected with _ | n
    · rfl
    · have h3 : ¬ (3 < n) := by have := hlim n ho; omega
      simp [foodLimitExceeded, h3]
  have hrun : (analyzeKoreanMenu env store (Except.ok ocr)).1 =
      Except.ok ⟨true, (processAll env store ocr.tokenUsage ocr.extractedNames).1,
        (processAll env store ocr.tokenUsage ocr.extractedNames).2.2.1⟩ := by
    simp [analyzeKoreanMenu, hex, hk]
  refine ⟨_, hrun, rfl, ?_, ?_⟩
  · exact processAll_length env ocr.extractedNames store ocr.tokenUsage
  · intro store2 usage2 nm rest h
    have hpres := processOne_none_preserves env store2 usage2 nm h
    simp [processAll, h, hpres.1, hpres.2]

/-- C3 witness: two extracted names against a store holding only the first;
the generative call fails for the second, so exactly one dish is returned. -/
theorem c3_failure_tolerance_witness :
    ∃ r, (analyzeKoreanMenu cwEnv [bibimbapFood] (Except.ok c3Ocr)).1 = Except.ok r ∧
      r.isKoreanMenu = true ∧
      r.dishes.length =
        (resolveOutcomes cwEnv [bibimbapFood] c3Ocr.tokenUsage
            c3Ocr.extractedNames).count true ∧
      (∀ (store2 : Store) (usage2 : TokenUsage) (nm : String) (rest : List String),
        (processOne cwEnv store2 usage2 nm).dish = none →
        (processAll cwEnv store2 usage2 (nm :: rest)).1 =
          (processAll cwEnv store2 usage2 rest).1) :=
  c3_failure_tolerance cwEnv [bibimbapFood] c3Ocr rfl
    (fun n h => by simp [c3Ocr] at h; omega)

/-! C9 -/

/-- C9 counterexample: resolving a name already in the store twice, with the
image layer returning a low-accuracy candidate the first time and a
high-accuracy one the second, produces dishes that differ in `imageAccuracy`
as well — so it is false that only the attached image URL may differ. -/
theorem c9_accuracy_also_differs :
    (processOne c9Env1 [bibimbapFood] usage0 "비빔밥").dish = some c9d1 ∧
      (processOne c9Env2 [bibimbapFood] usage0 "비빔밥").dish = some c9d2 ∧
      c9d1.imageAccuracy ≠ c9d2.imageAccuracy ∧
      { c9d1 with imageUrl := c9d2.imageUrl } ≠ c9d2 := by
  refine ⟨rfl, rfl, by decide, by decide⟩

/-- C9 amended: resolving a name present in the store never writes to the
store, and two successful resolutions agree on every DetectedDish field —
confidence and source included — except possibly the image URL and the image
accuracy tier, which both come from the per-resolution image search. -/
theorem c9_store_hit_idempotent (env1 env2 : OrcEnv) (store : Store)
    (usage1 usage2 : TokenUsage) (name : String) (f : KoreanFood)
    (d1 d2 : DetectedDish)
    (hf : findKoreanFood store name = some f)
    (h1 : env1.findFails name = false) (h2 : env2.findFails name = false)
    (hd1 : (processOne env1 store usage1 name).dish = some d1)
    (hd2 : (processOne env2 store usage2 name).dish = some d2) :
    (processOne env1 store usage1 name).store = store ∧
      (processOne env2 store usage2 name).store = store ∧
      { d1 with imageUrl := d2.imageUrl, imageAccuracy := d2.imageAccuracy } = d2 ∧
      d1.confidence = d2.confidence ∧ d1.source = d2.source := by
  obtain ⟨ir1, _, hdd1, hst1⟩ :=
    processOne_hit_inv env1 store usage1 name f d1 h1 hf hd1
  obtain ⟨ir2, _, hdd2, hst2⟩ :=
    processOne_hit_inv env2 store usage2 name f d2 h2 hf hd2
  subst hdd1 hdd2
  exact ⟨hst1, hst2, rfl, rfl, rfl⟩

/-- C9 amended witness: the two concrete store-hit runs above leave the store
unchanged and agree on everything but image URL and accuracy. -/
theorem c9_store_hit_idempotent_witness :
    (processOne c9Env1 [bibimbapFood] usage0 "비빔밥").store = [bibimbapFood] ∧
      (processOne c9Env2 [bibimbapFood] usage0 "비빔밥").store = [bibimbapFood] ∧
      { c9d1 with imageUrl := c9d2.imageUrl, imageAccuracy := c9d2.imageAccuracy } = c9d2 ∧
      c9d1.confidence = c9d2.confidence ∧ c9d1.source = c9d2.source :=
  c9_store_hit_idempotent c9Env1 c9Env2 [bibimbapFood] usage0 usage0 "비빔밥"
    bibimbapFood c9d1 c9d2 rfl rfl rfl rfl rfl

/-! C10 -/

/-- C10: when the image search result is none, or carries no non-empty
accuracy part after the bar, the parsed accuracy defaults to high, and the
dish the orchestrator builds — on the database path and on the generative
path alike — has imageAccuracy high, with a null imageUrl exactly in the
no-result case. -/
theorem c10_accuracy_defaults_high (imgRes : Option String)
    (h : hasAccuracySuffix imgRes = false) :
    (parseImageResult imgRes).2 = "high" ∧
      (imgRes = none → (parseImageResult imgRes).1 = none) ∧
      (∀ (env : OrcEnv) (store : Store) (usage : TokenUsage) (name : String)
          (f : KoreanFood) (d : DetectedDish),
        env.findFails name = false →
        findKoreanFood store name = some f →
        env.imageSearch name f.nameEnglish = Except.ok imgRes →
        (processOne env store usage name).dish = some d →
        d.imageAccuracy = "high" ∧ (imgRes = none → d.imageUrl = none)) ∧
      (∀ (env : OrcEnv) (store : Store) (usage : TokenUsage) (name : String)
          (a : AiFood) (d : DetectedDish),
        env.findFails name = false →
        findKoreanFood store name = none →
        env.ai name = Except.ok a →
        env.imageSearch name a.food.nameEnglish = Except.ok imgRes →
        (processOne env store usage name).dish = some d →
        d.imageAccuracy = "high" ∧ (imgRes = none → d.imageUrl = none)) := by
  have hacc : (parseImageResult imgRes).2 = "high" := by
    rcases imgRes with _ | s
    · rfl
    · rcases hparts : (jsSplit s '|').drop 1 with _ | ⟨a, rest⟩
      · simp [parseImageResult, hparts]
      · have ha : a = "" := by
          simpa [hasAccuracySuffix, hparts] using h
        simp [parseImageResult, hparts, ha]
  refine ⟨hacc, ?_, ?_, ?_⟩
  · rintro rfl; rfl
  · intro env store usage name f d hff hfind himg hd
    obtain ⟨ir, himg2, hdd, _⟩ :=
      processOne_hit_inv env store usage name f d hff hfind hd
    rw [himg] at himg2
    injection himg2 with hir
    subst hir
    subst hdd
    exact ⟨hacc, fun hnone => by subst hnone; rfl⟩
  · intro env store usage name a d hff hfind hai himg hd
    obtain ⟨a2, ir, hai2, himg2, _, hdd, _⟩ :=
      processOne_miss_inv env store usage name d hff hfind hd
    rw [hai] at hai2
    injection hai2 with ha
    subst ha
    rw [himg] at himg2
    injection himg2 with hir
    subst hir
    subst hdd
    exact ⟨hacc, fun hnone => by subst hnone; rfl⟩

/-- C10 witness: a concrete result string with no bar separator parses with
accuracy high, and both orchestrator paths apply the default. -/
theorem c10_accuracy_defaults_high_witness :
    (parseImageResult (some "https://img.jpg")).2 = "high" ∧
      ((some "https://img.jpg" : Option String) = none →
        (parseImageResult (some "https://img.jpg")).1 = none) ∧
      (∀ (env : OrcEnv) (store : Store) (usage : TokenUsage) (name : String)
          (f : KoreanFood) (d : DetectedDish),
        env.findFails name = false →
        findKoreanFood store name = some f →
        env.imageSearch name f.nameEnglish = Except.ok (some "https://img.jpg") →
        (processOne env store usage name).dish = some d →
        d.imageAccuracy = "high" ∧
          ((some "https://img.jpg" : Option String) = none → d.imageUrl = none)) ∧
      (∀ (env : OrcEnv) (store : Store) (usage : TokenUsage) (name : String)
          (a : AiFood) (d : DetectedDish),
        env.findFails name = false →
        findKoreanFood store name = none →
        env.ai name = Except.ok a →
        env.imageSearch name a.food.nameEnglish = Except.ok (some "https://img.jpg") →
        (processOne env store usage name).dish = some d →
        d.imageAccuracy = "high" ∧
          ((some "https://img.jpg" : Option String) = none → d.imageUrl = none)) :=
  c10_accuracy_defaults_high (some "https://img.jpg") (by decide)

/-! C8 -/

/-- C8: for every extraction, the reported USD cost is
prompt tokens times 0.0025 per thousand plus completion tokens times 0.01 per
thousand, the AUD cost is the USD cost times 1.5, and the two token rates are
the fixed constants `promptTokenCost` and `completionTokenCost` rather than
values computed per call. -/
theorem c8_cost_accounting (resp : ParsedOcr) (u : RawUsage) :
    (extractKoreanFoodNames resp u).tokenUsage.cost_usd =
        u.prompt_tokens * ((0.0025 : Rat) / 1000) +
          u.completion_tokens * ((0.01 : Rat) / 1000) ∧
      (extractKoreanFoodNames resp u).tokenUsage.cost_aud =
        (extractKoreanFoodNames resp u).tokenUsage.cost_usd * 1.5 ∧
      promptTokenCost = (0.0025 : Rat) / 1000 ∧
      completionTokenCost = (0.01 : Rat) / 1000 :=
  ⟨rfl, rfl, rfl, rfl⟩

/-! C4 -/

/-- C4: when the Korean-specialized (Naver) search returns a candidate whose
URL passes validation, the waterfall — and the surrounding
searchKoreanFood — returns exactly that candidate with its accuracy label,
and the trace shows that neither Pexels nor Pixabay nor Unsplash is queried
for that lookup. -/
theorem c4_naver_short_circuit (we : WaterEnv) (ue : UnsplashEnv)
    (kn : String) (en : Option String) (r : ImageResult)
    (hn : searchNaver we.naverResponses = some r)
    (hv : we.valid r.url = true) :
    searchKoreanFood we ue kn en =
      (some (r.url ++ "|" ++ r.accuracy.toLabel),
        [ImgEvent.naverQuery, ImgEvent.validateUrl r.url]) ∧
      ImgEvent.pexelsQuery ∉ (searchKoreanFood we ue kn en).2 ∧
      ImgEvent.pixabayQuery ∉ (searchKoreanFood we ue kn en).2 ∧
      ∀ q, ImgEvent.unsplashQuery q ∉ (searchKoreanFood we ue kn en).2 := by
  have hw : searchKoreanFoodImage we =
      (some (r.url ++ "|" ++ r.accuracy.toLabel),
        [ImgEvent.naverQuery, ImgEvent.validateUrl r.url]) := by
    simp [searchKoreanFoodImage, hn, validateStage, hv]
  have hk : searchKoreanFood we ue kn en =
      (some (r.url ++ "|" ++ r.accuracy.toLabel),
        [ImgEvent.naverQuery, ImgEvent.validateUrl r.url]) := by
    simp [searchKoreanFood, hw]
  rw [hk]
  exact ⟨rfl, by simp, by simp, fun q => by simp⟩

/-- C4 witness: a Naver response from a Korean blog domain, with validation
passing, short-circuits the concrete waterfall. -/
theorem c4_naver_short_circuit_witness :
    searchKoreanFood c4We c4Ue "비빔밥" (some "bibimbap") =
      (some (naverBlogResult.url ++ "|" ++ naverBlogResult.accuracy.toLabel),
        [ImgEvent.naverQuery, ImgEvent.validateUrl naverBlogResult.url]) ∧
      ImgEvent.pexelsQuery ∉ (searchKoreanFood c4We c4Ue "비빔밥" (some "bibimbap")).2 ∧
      ImgEvent.pixabayQuery ∉ (searchKoreanFood c4We c4Ue "비빔밥" (some "bibimbap")).2 ∧
      ∀ q, ImgEvent.unsplashQuery q ∉
        (searchKoreanFood c4We c4Ue "비빔밥" (some "bibimbap")).2 :=
  c4_naver_short_circuit c4We c4Ue "비빔밥" (some "bibimbap") naverBlogResult
    (by decide) rfl

/-! C6 -/

/-- C6: evaluation at the failing input.  On a response whose top-scored
candidate sits on a blocked shopping domain, `searchNaver` abandons the whole
response (the continue targets the query loop, despite the comment saying
skip to next item) and returns nothing, even though the response also holds a
non-excluded candidate with a non-negative score — so the adapter does not
select the highest-scoring non-excluded candidate of the response. -/
theorem c6_blocked_candidate_aborts_query :
    searchNaverStep [c6BlockedItem, c6CleanItem] = none ∧
      searchNaver [[c6BlockedItem, c6CleanItem]] = none ∧
      blockedDomain (itemUrl c6BlockedItem) = true ∧
      blockedDomain (itemUrl c6CleanItem) = false ∧
      0 ≤ naverScore c6CleanItem ∧
      naverScore c6CleanItem ≤ naverScore c6BlockedItem := by
  exact ⟨by decide, by decide, by decide, by decide, by decide, by decide⟩

/-! C7 -/

/-- C7 counterexample: a run in which every provider fails end to end — the
waterfall finds nothing and every Unsplash query returns no images — yields
no image at all, and the trace shows the generic last-resort query is never
issued: `searchGenericKoreanFood` has no caller on this path. -/
theorem c7_generic_query_not_issued :
    (searchKoreanFood c7We c7Ue "불고기" (some "bulgogi")).1 = none ∧
      ImgEvent.genericUnsplashQuery ∉
        (searchKoreanFood c7We c7Ue "불고기" (some "bulgogi")).2 := by
  exact ⟨rfl, by decide⟩

/-- C7 amended: on a fully-failed waterfall run the caller returns none
without issuing the generic korean-food query; the generic random-pick search
exists as the separate `searchGenericKoreanFood` operation, which, when
invoked with a key and a non-empty response, returns the regular URL of one of
the first `min n 5` results. -/
theorem c7_no_generic_fallback (we : WaterEnv) (ue : UnsplashEnv)
    (kn : String) (en : Option String)
    (hna : searchNaver we.naverResponses = none)
    (hpe : we.pexels = none) (hpi : we.pixabay = none)
    (hq : ∀ q, ue.query q = []) :
    (searchKoreanFood we ue kn en).1 = none ∧
      ImgEvent.genericUnsplashQuery ∉ (searchKoreanFood we ue kn en).2 ∧
      (∀ ue2 : UnsplashEnv, ue2.accessKey ≠ "" → ue2.genericImages ≠ [] →
        ∃ i img, i < min ue2.genericImages.length 5 ∧
          ue2.genericImages[i]? = some img ∧
          (searchGenericKoreanFood ue2).1 = some img.regular) := by
  have hwf : searchKoreanFoodImage we =
      (none, [ImgEvent.naverQuery, ImgEvent.pexelsQuery, ImgEvent.pixabayQuery]) := by
    simp [searchKoreanFoodImage, hna, hpe, hpi, validateStage]
  have hloop := unsplashLoop_empty ue.query hq
  refine ⟨?_, ?_, ?_⟩
  · by_cases hak : ue.accessKey = ""
    · simp [searchKoreanFood, hwf, hak]
    · cases en with
      | none => simp [searchKoreanFood, hwf, hak]
      | some e => simp [searchKoreanFood, hwf, hak, hloop]
  · by_cases hak : ue.accessKey = ""
    · simp [searchKoreanFood, hwf, hak]
    · cases en with
      | none => simp [searchKoreanFood, hwf, hak]
      | some e => simp [searchKoreanFood, hwf, hak, hloop]
  · intro ue2 hk2 hne
    have hlen : 0 < ue2.genericImages.length := List.length_pos.mpr hne
    have hminpos : 0 < min ue2.genericImages.length 5 :=
      lt_min hlen (by norm_num)
    have hidxlt : ue2.rand % min ue2.genericImages.length 5 <
        min ue2.genericImages.length 5 := Nat.mod_lt _ hminpos
    have hidxlen : ue2.rand % min ue2.genericImages.length 5 <
        ue2.genericImages.length := lt_of_lt_of_le hidxlt (min_le_left _ _)
    have hemp : ue2.genericImages.isEmpty = false := by
      rcases hg : ue2.genericImages with _ | ⟨hd, tl⟩
      · exact absurd hg hne
      · rfl
    refine ⟨ue2.rand % min ue2.genericImages.length 5,
      ue2.genericImages[ue2.rand % min ue2.genericImages.length 5], hidxlt, ?_, ?_⟩
    · exact List.getElem?_eq_getElem hidxlen
    · simp [searchGenericKoreanFood, hk2, hemp,
        List.getElem?_eq_getElem hidxlen]

/-- C7 amended witness: the concrete fully-failed run returns none with no
generic query, and a concrete generic search with one result returns it. -/
theorem c7_no_generic_fallback_witness :
    (searchKoreanFood c7We c7Ue "불고기" (some "bulgogi")).1 = none ∧
      ImgEvent.genericUnsplashQuery ∉
        (searchKoreanFood c7We c7Ue "불고기" (some "bulgogi")).2 ∧
      (∀ ue2 : UnsplashEnv, ue2.accessKey ≠ "" → ue2.genericImages ≠ [] →
        ∃ i img, i < min ue2.genericImages.length 5 ∧
          ue2.genericImages[i]? = some img ∧
          (searchGenericKoreanFood ue2).1 = some img.regular) :=
  c7_no_generic_fallback c7We c7Ue "불고기" (some "bulgogi") rfl rfl rfl
    (fun _ => rfl)

end MenuWise
